import Mathlib

/-!
Shallow embedding of the voltage_control repository: a bidirectional PI
voltage controller for a grid-tied energy-storage unit.  C `float`
arithmetic is modelled over `ℝ`; the global mutable state
(`sys_cfg`, `realtime_status`, `ctrl_state`) is made explicit by passing
the records as arguments and returning updated copies.
-/

open Real

/-- System configuration parameters (struct `SystemConfig_Cfg`,
voltage_control.cpp lines 22-42). -/
structure SystemConfig_Cfg where
  V_ref_upper : ℝ
  V_ref_lower : ℝ
  Deadband_upper : ℝ
  Deadband_lower : ℝ
  V_enter_lower : ℝ
  Kp_upper : ℝ
  Ki_upper : ℝ
  Kp_lower : ℝ
  Ki_lower : ℝ
  P_step_max : ℝ
  P_charge_max : ℝ
  P_discharge_max : ℝ
  SOC_max : ℝ
  SOC_min : ℝ

/-- Real-time system status (struct `SystemStatus_RealTime`,
voltage_control.cpp lines 46-52). -/
structure SystemStatus_RealTime where
  V_meas : ℝ
  SOC : ℝ
  P_meas : ℝ
  P_soc_charge_limit : ℝ
  P_soc_discharge_limit : ℝ

/-- Controller internal state (struct `ControllerState`,
voltage_control.cpp lines 56-60).  `Ctrl_Mode`: 0 = normal, 1 = over-voltage,
2 = under-voltage. -/
structure ControllerState where
  Ctrl_Mode : Int
  integral_upper : ℝ
  integral_lower : ℝ

/-- Mode classification (`Determine_CtrlMode`, voltage_control.cpp
lines 68-76). -/
noncomputable def Determine_CtrlMode (V_meas : ℝ) (cfg : SystemConfig_Cfg) : Int :=
  if V_meas > cfg.V_ref_upper + cfg.Deadband_upper then 1
  else if V_meas < cfg.V_ref_lower - cfg.Deadband_lower ∧ V_meas > cfg.V_enter_lower then 2
  else 0

/-- Over-voltage PI control (`Calculate_OverVoltage_Control`,
voltage_control.cpp lines 79-116).  The globals it reads and writes are
passed explicitly; it returns the final command together with the updated
controller state. -/
noncomputable def Calculate_OverVoltage_Control (cfg : SystemConfig_Cfg)
    (rt : SystemStatus_RealTime) (st : ControllerState) : ℝ × ControllerState :=
  let effective_error0 := rt.V_meas - (cfg.V_ref_upper + cfg.Deadband_upper)
  let effective_error := if effective_error0 < 0 then 0 else effective_error0
  let integral_upper := st.integral_upper + effective_error * cfg.Ki_upper
  let P_calc0 := effective_error * cfg.Kp_upper + integral_upper
  let P_calc := if P_calc0 > cfg.P_step_max then cfg.P_step_max else P_calc0
  let P_cmd1 := P_calc + rt.P_meas
  let P_cmd2 := if P_cmd1 > rt.P_soc_charge_limit then rt.P_soc_charge_limit else P_cmd1
  let P_cmd3 := if P_cmd2 > cfg.P_charge_max then cfg.P_charge_max else P_cmd2
  let P_cmd_final := if P_cmd3 < 0 then 0 else P_cmd3
  (P_cmd_final, { st with integral_upper := integral_upper })

/-- Under-voltage PI control (`Calculate_UnderVoltage_Control`,
voltage_control.cpp lines 119-171). -/
noncomputable def Calculate_UnderVoltage_Control (cfg : SystemConfig_Cfg)
    (rt : SystemStatus_RealTime) (st : ControllerState) : ℝ × ControllerState :=
  let effective_error0 := (cfg.V_ref_lower - cfg.Deadband_lower) - rt.V_meas
  let effective_error := if effective_error0 < 0 then 0 else effective_error0
  let integral_lower := st.integral_lower + effective_error * cfg.Ki_lower
  let P_calc0 := effective_error * cfg.Kp_lower + integral_lower
  let P_calc := if P_calc0 > cfg.P_step_max then cfg.P_step_max else P_calc0
  let P_cmd_target := rt.P_meas - P_calc
  let P_discharge_capacity :=
    if rt.P_soc_discharge_limit < cfg.P_discharge_max then rt.P_soc_discharge_limit
    else cfg.P_discharge_max
  let P_cmd_lower_limit := -P_discharge_capacity
  let P_cmd_final :=
    if P_cmd_target > 0 then 0
    else if P_cmd_target < P_cmd_lower_limit then P_cmd_lower_limit
    else P_cmd_target
  (P_cmd_final, { st with integral_lower := integral_lower })

/-- SOC-based power limits (`Calculate_SOC_Power_Limits`,
voltage_control.cpp lines 181-216).  Returns the pair
(charge_limit, discharge_limit) written through the out-parameters. -/
noncomputable def Calculate_SOC_Power_Limits (soc : ℝ) (cfg : SystemConfig_Cfg) : ℝ × ℝ :=
  let charge_transition_width : ℝ := 0.05
  let discharge_transition_width : ℝ := 0.05
  let charge_factor :=
    if soc ≥ cfg.SOC_max then 0
    else if soc ≤ cfg.SOC_max - charge_transition_width then 1
    else 0.5 * (1 + Real.cos (Real.pi *
      ((soc - (cfg.SOC_max - charge_transition_width)) / charge_transition_width)))
  let charge_limit0 := cfg.P_charge_max * charge_factor
  let discharge_factor :=
    if soc ≤ cfg.SOC_min then 0
    else if soc ≥ cfg.SOC_min + discharge_transition_width then 1
    else 0.5 * (1 - Real.cos (Real.pi *
      ((soc - cfg.SOC_min) / discharge_transition_width)))
  let discharge_limit0 := cfg.P_discharge_max * discharge_factor
  let charge_limit := if charge_limit0 < 0 then 0 else charge_limit0
  let discharge_limit := if discharge_limit0 < 0 then 0 else discharge_limit0
  (charge_limit, discharge_limit)

/-- Result of one control tick: the updated controller state and the power
command sent to the PCS. -/
structure TickResult where
  state : ControllerState
  P_cmd : ℝ

/-- One iteration of the main control loop (`Main_VoltageControlLoop`,
voltage_control.cpp lines 256-301), with the telemetry acquisition step
(`Simulate_RealTimeData`) replaced by the raw telemetry inputs
`V_meas`, `SOC`, `P_meas`: the loop computes the SOC power limits, attaches
them to the real-time status, classifies the mode and dispatches to the
matching controller (`switch` on `Ctrl_Mode`, lines 275-294). -/
noncomputable def Main_VoltageControlLoop (cfg : SystemConfig_Cfg)
    (V_meas SOC P_meas : ℝ) (st : ControllerState) : TickResult :=
  let limits := Calculate_SOC_Power_Limits SOC cfg
  let rt : SystemStatus_RealTime :=
    { V_meas := V_meas, SOC := SOC, P_meas := P_meas,
      P_soc_charge_limit := limits.1, P_soc_discharge_limit := limits.2 }
  let mode := Determine_CtrlMode V_meas cfg
  let st1 : ControllerState := { st with Ctrl_Mode := mode }
  if mode = 0 then
    { state := { st1 with integral_upper := 0, integral_lower := 0 }, P_cmd := 0 }
  else if mode = 1 then
    let r := Calculate_OverVoltage_Control cfg rt st1
    { state := r.2, P_cmd := r.1 }
  else if mode = 2 then
    let r := Calculate_UnderVoltage_Control cfg rt st1
    { state := r.2, P_cmd := r.1 }
  else
    { state := st1, P_cmd := 0 }

/-- The example configuration given throughout the spec: thresholds
241/198 V with 2 V dead-bands, entry threshold 160 V, unit proportional
gains, integral gains 0.1, 10 kW step, 125 kW PCS ratings,
SOC window [0.15, 0.95]. -/
noncomputable def cfg0 : SystemConfig_Cfg :=
  { V_ref_upper := 241, V_ref_lower := 198,
    Deadband_upper := 2, Deadband_lower := 2, V_enter_lower := 160,
    Kp_upper := 1, Ki_upper := 0.1, Kp_lower := 1, Ki_lower := 0.1,
    P_step_max := 10, P_charge_max := 125, P_discharge_max := 125,
    SOC_max := 0.95, SOC_min := 0.15 }

/-- Initial controller state as set in `main` (voltage_control.cpp
lines 416-418): Normal mode, both accumulators zero. -/
def ctrl_state_init : ControllerState :=
  { Ctrl_Mode := 0, integral_upper := 0, integral_lower := 0 }

/-- C1: for every configuration and telemetry sample (satisfying the data
model's sign invariants on the discharge limits), the over-voltage
controller's command is ≥ 0 and the under-voltage controller's command
is ≤ 0. -/
theorem C1_command_sign_invariant (cfg : SystemConfig_Cfg)
    (rt : SystemStatus_RealTime) (st : ControllerState)
    (h1 : 0 ≤ cfg.P_discharge_max) (h2 : 0 ≤ rt.P_soc_discharge_limit) :
    0 ≤ (Calculate_OverVoltage_Control cfg rt st).1 ∧
    (Calculate_UnderVoltage_Control cfg rt st).1 ≤ 0 := by
  constructor
  · simp only [Calculate_OverVoltage_Control]
    split_ifs <;> linarith
  · simp only [Calculate_UnderVoltage_Control]
    split_ifs <;> linarith

/-- C1 witness: the sign invariant instantiated at the spec's example
configuration with concrete telemetry. -/
theorem C1_command_sign_invariant_witness :
    (0 ≤ cfg0.P_discharge_max ∧
      0 ≤ (SystemStatus_RealTime.mk 250 0.5 0 125 125).P_soc_discharge_limit) ∧
    (0 ≤ (Calculate_OverVoltage_Control cfg0
        (SystemStatus_RealTime.mk 250 0.5 0 125 125) ctrl_state_init).1 ∧
      (Calculate_UnderVoltage_Control cfg0
        (SystemStatus_RealTime.mk 250 0.5 0 125 125) ctrl_state_init).1 ≤ 0) :=
  ⟨⟨by norm_num [cfg0], by norm_num⟩,
    C1_command_sign_invariant cfg0 (SystemStatus_RealTime.mk 250 0.5 0 125 125)
      ctrl_state_init (by norm_num [cfg0]) (by norm_num)⟩

/-- C2 counterexample: starting from the initial state, a tick at 190 V
(classified UnderVoltage, accumulating integral_lower = 0.6) followed by a
tick at 250 V (classified OverVoltage) leaves integral_lower = 0.6 ≠ 0:
the orchestrator does NOT zero the inactive controller's accumulator on an
OverVoltage tick reached directly from UnderVoltage. -/
theorem C2_counterexample :
    (Main_VoltageControlLoop cfg0 190 0.5 0 ctrl_state_init).state.Ctrl_Mode = 2 ∧
    (Main_VoltageControlLoop cfg0 250 0.5 0
      (Main_VoltageControlLoop cfg0 190 0.5 0 ctrl_state_init).state).state.Ctrl_Mode = 1 ∧
    (Main_VoltageControlLoop cfg0 250 0.5 0
      (Main_VoltageControlLoop cfg0 190 0.5 0 ctrl_state_init).state).state.integral_lower
      = 0.6 ∧
    (Main_VoltageControlLoop cfg0 250 0.5 0
      (Main_VoltageControlLoop cfg0 190 0.5 0 ctrl_state_init).state).state.integral_lower
      ≠ 0 := by
  norm_num [Main_VoltageControlLoop, Determine_CtrlMode, Calculate_SOC_Power_Limits,
    Calculate_OverVoltage_Control, Calculate_UnderVoltage_Control, cfg0, ctrl_state_init]

/-- C2 amended: the orchestrator zeroes both accumulators only on ticks
classified Normal; on an OverVoltage tick integral_lower is left unchanged
(not forced to 0), and on an UnderVoltage tick integral_upper is left
unchanged, so a nonzero dormant accumulator can survive a direct
transition between the two active modes. -/
theorem C2_amended_inactive_accumulator (cfg : SystemConfig_Cfg)
    (V SOC P : ℝ) (st : ControllerState) :
    (Determine_CtrlMode V cfg = 1 →
      (Main_VoltageControlLoop cfg V SOC P st).state.integral_lower = st.integral_lower) ∧
    (Determine_CtrlMode V cfg = 2 →
      (Main_VoltageControlLoop cfg V SOC P st).state.integral_upper = st.integral_upper) ∧
    (Determine_CtrlMode V cfg = 0 →
      (Main_VoltageControlLoop cfg V SOC P st).state.integral_upper = 0 ∧
      (Main_VoltageControlLoop cfg V SOC P st).state.integral_lower = 0) := by
  refine ⟨fun h => ?_, fun h => ?_, fun h => ?_⟩ <;>
    simp [Main_VoltageControlLoop, h, Calculate_OverVoltage_Control,
      Calculate_UnderVoltage_Control]

/-- C2 amended witness: with the spec's example configuration, an
OverVoltage tick (250 V) preserves integral_lower = 3, an UnderVoltage tick
(190 V) preserves integral_upper = 5, and a Normal tick (220 V) zeroes
both accumulators. -/
theorem C2_amended_inactive_accumulator_witness :
    (Main_VoltageControlLoop cfg0 250 0.5 0
      (ControllerState.mk 0 0 3)).state.integral_lower = 3 ∧
    (Main_VoltageControlLoop cfg0 190 0.5 0
      (ControllerState.mk 0 5 0)).state.integral_upper = 5 ∧
    ((Main_VoltageControlLoop cfg0 220 0.5 0
        (ControllerState.mk 0 5 3)).state.integral_upper = 0 ∧
      (Main_VoltageControlLoop cfg0 220 0.5 0
        (ControllerState.mk 0 5 3)).state.integral_lower = 0) :=
  ⟨(C2_amended_inactive_accumulator cfg0 250 0.5 0 (ControllerState.mk 0 0 3)).1
      (by norm_num [Determine_CtrlMode, cfg0]),
    (C2_amended_inactive_accumulator cfg0 190 0.5 0 (ControllerState.mk 0 5 0)).2.1
      (by norm_num [Determine_CtrlMode, cfg0]),
    (C2_amended_inactive_accumulator cfg0 220 0.5 0 (ControllerState.mk 0 5 3)).2.2
      (by norm_num [Determine_CtrlMode, cfg0])⟩

/-- C3: on a tick classified Normal the orchestrator emits command 0 and
zeroes both integral accumulators regardless of their prior values (so in
particular integral_upper is cleared on the first Normal tick after
OverVoltage), and a second consecutive Normal tick with the same telemetry
leaves both accumulators at 0. -/
theorem C3_normal_tick_reset (cfg : SystemConfig_Cfg) (V SOC P : ℝ)
    (st : ControllerState) (h : Determine_CtrlMode V cfg = 0) :
    (Main_VoltageControlLoop cfg V SOC P st).P_cmd = 0 ∧
    (Main_VoltageControlLoop cfg V SOC P st).state.integral_upper = 0 ∧
    (Main_VoltageControlLoop cfg V SOC P st).state.integral_lower = 0 ∧
    (Main_VoltageControlLoop cfg V SOC P
      (Main_VoltageControlLoop cfg V SOC P st).state).state.integral_upper = 0 ∧
    (Main_VoltageControlLoop cfg V SOC P
      (Main_VoltageControlLoop cfg V SOC P st).state).state.integral_lower = 0 := by
  simp [Main_VoltageControlLoop, h]

/-- C3 witness: a Normal tick at 220 V from a state that had just been in
OverVoltage mode with nonzero accumulators emits 0 and clears both. -/
theorem C3_normal_tick_reset_witness :
    Determine_CtrlMode 220 cfg0 = 0 ∧
    ((Main_VoltageControlLoop cfg0 220 0.5 0 (ControllerState.mk 1 7 3)).P_cmd = 0 ∧
      (Main_VoltageControlLoop cfg0 220 0.5 0
        (ControllerState.mk 1 7 3)).state.integral_upper = 0 ∧
      (Main_VoltageControlLoop cfg0 220 0.5 0
        (ControllerState.mk 1 7 3)).state.integral_lower = 0 ∧
      (Main_VoltageControlLoop cfg0 220 0.5 0
        (Main_VoltageControlLoop cfg0 220 0.5 0
          (ControllerState.mk 1 7 3)).state).state.integral_upper = 0 ∧
      (Main_VoltageControlLoop cfg0 220 0.5 0
        (Main_VoltageControlLoop cfg0 220 0.5 0
          (ControllerState.mk 1 7 3)).state).state.integral_lower = 0) :=
  ⟨by norm_num [Determine_CtrlMode, cfg0],
    C3_normal_tick_reset cfg0 220 0.5 0 (ControllerState.mk 1 7 3)
      (by norm_num [Determine_CtrlMode, cfg0])⟩

/-- C4: every voltage strictly above V_ref_upper + Deadband_upper is
classified OverVoltage, and (for a well-formed configuration with
V_ref_lower ≤ V_ref_upper and non-negative dead-bands) the voltage exactly
at the boundary is classified Normal. -/
theorem C4_overvoltage_boundary (cfg : SystemConfig_Cfg) (V : ℝ)
    (hlu : cfg.V_ref_lower ≤ cfg.V_ref_upper)
    (hdu : 0 ≤ cfg.Deadband_upper) (hdl : 0 ≤ cfg.Deadband_lower) :
    (cfg.V_ref_upper + cfg.Deadband_upper < V → Determine_CtrlMode V cfg = 1) ∧
    Determine_CtrlMode (cfg.V_ref_upper + cfg.Deadband_upper) cfg = 0 := by
  constructor
  · intro h
    simp [Determine_CtrlMode, h]
  · have h2 : ¬ (cfg.V_ref_upper + cfg.Deadband_upper <
        cfg.V_ref_lower - cfg.Deadband_lower ∧
        cfg.V_ref_upper + cfg.Deadband_upper > cfg.V_enter_lower) := by
      rintro ⟨h3, -⟩
      linarith
    simp [Determine_CtrlMode, h2]

/-- C4 witness: at the spec's example configuration, 250 V (above the
243 V boundary) is OverVoltage and exactly 243 V is Normal. -/
theorem C4_overvoltage_boundary_witness :
    (cfg0.V_ref_lower ≤ cfg0.V_ref_upper ∧ 0 ≤ cfg0.Deadband_upper ∧
      0 ≤ cfg0.Deadband_lower) ∧
    ((cfg0.V_ref_upper + cfg0.Deadband_upper < 250 →
        Determine_CtrlMode 250 cfg0 = 1) ∧
      Determine_CtrlMode (cfg0.V_ref_upper + cfg0.Deadband_upper) cfg0 = 0) :=
  ⟨by norm_num [cfg0],
    C4_overvoltage_boundary cfg0 250 (by norm_num [cfg0]) (by norm_num [cfg0])
      (by norm_num [cfg0])⟩

/-- C5: the classifier returns UnderVoltage exactly when the voltage is not
above the over-voltage threshold, is below V_ref_lower - Deadband_lower,
and is above the entry guard V_enter_lower; in particular 159 V with
V_enter_lower = 160 (spec Scenario C, cfg0) is classified Normal. -/
theorem C5_undervoltage_guard (cfg : SystemConfig_Cfg) (V : ℝ) :
    (Determine_CtrlMode V cfg = 2 ↔
      ¬ V > cfg.V_ref_upper + cfg.Deadband_upper ∧
        V < cfg.V_ref_lower - cfg.Deadband_lower ∧ V > cfg.V_enter_lower) ∧
    Determine_CtrlMode 159 cfg0 = 0 := by
  constructor
  · unfold Determine_CtrlMode
    split_ifs with h1 h2 <;> simp_all
  · norm_num [Determine_CtrlMode, cfg0]

/-- C7: spec Scenario A.  With cfg0 (V_ref_upper=241, Deadband_upper=2,
Kp_upper=1, Ki_upper=0.1, P_step_max=10, P_charge_max=125) and telemetry
V_meas=250, P_meas=0, P_soc_charge_limit=125, starting from
integral_upper = 0: the mode is OverVoltage, the effective error is 7,
the updated integral_upper is 0.7, and the emitted command is 7.7. -/
theorem C7_scenario_A :
    Determine_CtrlMode 250 cfg0 = 1 ∧
    (250 : ℝ) - (cfg0.V_ref_upper + cfg0.Deadband_upper) = 7 ∧
    (Calculate_OverVoltage_Control cfg0 (SystemStatus_RealTime.mk 250 0.5 0 125 125)
      ctrl_state_init).2.integral_upper = 0.7 ∧
    (Calculate_OverVoltage_Control cfg0 (SystemStatus_RealTime.mk 250 0.5 0 125 125)
      ctrl_state_init).1 = 7.7 := by
  norm_num [Determine_CtrlMode, Calculate_OverVoltage_Control, cfg0, ctrl_state_init]

/-- C8: whenever soc ≥ SOC_max the charge limit is exactly 0, independent of
the transition-band width and of P_charge_max. -/
theorem C8_charge_limit_at_soc_max (cfg : SystemConfig_Cfg) (soc : ℝ)
    (h : cfg.SOC_max ≤ soc) :
    (Calculate_SOC_Power_Limits soc cfg).1 = 0 := by
  simp [Calculate_SOC_Power_Limits, ge_iff_le, h]

/-- C8 witness: SOC = 0.96 with SOC_max = 0.95 yields charge_limit = 0. -/
theorem C8_charge_limit_at_soc_max_witness :
    cfg0.SOC_max ≤ 0.96 ∧ (Calculate_SOC_Power_Limits 0.96 cfg0).1 = 0 :=
  ⟨by norm_num [cfg0], C8_charge_limit_at_soc_max cfg0 0.96 (by norm_num [cfg0])⟩

/-- C10: for every soc, with non-negative configured maxima, the SOC limit
curve's outputs satisfy 0 ≤ charge_limit ≤ P_charge_max and
0 ≤ discharge_limit ≤ P_discharge_max: the cosine factor never exceeds 1,
so the curve only derates the configured maxima. -/
theorem C10_soc_power_limits_bounded (cfg : SystemConfig_Cfg) (soc : ℝ)
    (hc : 0 ≤ cfg.P_charge_max) (hd : 0 ≤ cfg.P_discharge_max) :
    0 ≤ (Calculate_SOC_Power_Limits soc cfg).1 ∧
    (Calculate_SOC_Power_Limits soc cfg).1 ≤ cfg.P_charge_max ∧
    0 ≤ (Calculate_SOC_Power_Limits soc cfg).2 ∧
    (Calculate_SOC_Power_Limits soc cfg).2 ≤ cfg.P_discharge_max := by
  have k1 := Real.cos_le_one (Real.pi * ((soc - (cfg.SOC_max - 0.05)) / 0.05))
  have k2 := Real.neg_one_le_cos (Real.pi * ((soc - (cfg.SOC_max - 0.05)) / 0.05))
  have k3 := Real.cos_le_one (Real.pi * ((soc - cfg.SOC_min) / 0.05))
  have k4 := Real.neg_one_le_cos (Real.pi * ((soc - cfg.SOC_min) / 0.05))
  simp only [Calculate_SOC_Power_Limits]
  refine ⟨?_, ?_, ?_, ?_⟩ <;> split_ifs <;> first
    | linarith
    | nlinarith

/-- C10 witness: at the spec's example configuration and SOC = 0.5 both
limits are within [0, 125]. -/
theorem C10_soc_power_limits_bounded_witness :
    (0 ≤ cfg0.P_charge_max ∧ 0 ≤ cfg0.P_discharge_max) ∧
    (0 ≤ (Calculate_SOC_Power_Limits 0.5 cfg0).1 ∧
      (Calculate_SOC_Power_Limits 0.5 cfg0).1 ≤ cfg0.P_charge_max ∧
      0 ≤ (Calculate_SOC_Power_Limits 0.5 cfg0).2 ∧
      (Calculate_SOC_Power_Limits 0.5 cfg0).2 ≤ cfg0.P_discharge_max) :=
  ⟨by norm_num [cfg0],
    C10_soc_power_limits_bounded cfg0 0.5 (by norm_num [cfg0]) (by norm_num [cfg0])⟩

/-- C6: the discharge output of the SOC limit curve is 0 for soc ≤ SOC_min,
equals P_discharge_max for soc ≥ SOC_min + 0.05, and on the open transition
band it matches P_discharge_max · 0.5·(1 − cos(π·x)) with
x = (soc − SOC_min)/0.05, is monotonically non-decreasing, and is
continuous. -/
theorem C6_discharge_limit_curve (cfg : SystemConfig_Cfg)
    (hP : 0 ≤ cfg.P_discharge_max) :
    (∀ soc : ℝ, soc ≤ cfg.SOC_min → (Calculate_SOC_Power_Limits soc cfg).2 = 0) ∧
    (∀ soc : ℝ, cfg.SOC_min + 0.05 ≤ soc →
      (Calculate_SOC_Power_Limits soc cfg).2 = cfg.P_discharge_max) ∧
    (∀ soc ∈ Set.Ioo cfg.SOC_min (cfg.SOC_min + 0.05),
      (Calculate_SOC_Power_Limits soc cfg).2 =
        cfg.P_discharge_max *
          (0.5 * (1 - Real.cos (Real.pi * ((soc - cfg.SOC_min) / 0.05))))) ∧
    (∀ s1 ∈ Set.Ioo cfg.SOC_min (cfg.SOC_min + 0.05),
      ∀ s2 ∈ Set.Ioo cfg.SOC_min (cfg.SOC_min + 0.05), s1 ≤ s2 →
      (Calculate_SOC_Power_Limits s1 cfg).2 ≤ (Calculate_SOC_Power_Limits s2 cfg).2) ∧
    ContinuousOn (fun soc => (Calculate_SOC_Power_Limits soc cfg).2)
      (Set.Ioo cfg.SOC_min (cfg.SOC_min + 0.05)) := by
  have hform : ∀ soc ∈ Set.Ioo cfg.SOC_min (cfg.SOC_min + 0.05),
      (Calculate_SOC_Power_Limits soc cfg).2 =
        cfg.P_discharge_max *
          (0.5 * (1 - Real.cos (Real.pi * ((soc - cfg.SOC_min) / 0.05)))) := by
    rintro soc ⟨ha, hb⟩
    have h1 : ¬ soc ≤ cfg.SOC_min := not_le.mpr ha
    have h2 : ¬ cfg.SOC_min + 0.05 ≤ soc := not_le.mpr hb
    have k := Real.cos_le_one (Real.pi * ((soc - cfg.SOC_min) / 0.05))
    have hf : (0:ℝ) ≤ 0.5 * (1 - Real.cos (Real.pi * ((soc - cfg.SOC_min) / 0.05))) := by
      linarith
    have hnn := mul_nonneg hP hf
    simp [Calculate_SOC_Power_Limits, ge_iff_le, h1, h2, not_lt.mpr hnn]
  refine ⟨?_, ?_, hform, ?_, ?_⟩
  · intro soc h
    simp [Calculate_SOC_Power_Limits, h]
  · intro soc h
    have h1 : ¬ soc ≤ cfg.SOC_min := by
      push_neg
      linarith
    simp [Calculate_SOC_Power_Limits, ge_iff_le, h1, h, not_lt.mpr hP]
  · rintro s1 hs1 s2 hs2 h12
    obtain ⟨ha1, hb1⟩ := hs1
    obtain ⟨ha2, hb2⟩ := hs2
    rw [hform s1 ⟨ha1, hb1⟩, hform s2 ⟨ha2, hb2⟩]
    have hx1 : (0:ℝ) ≤ (s1 - cfg.SOC_min) / 0.05 :=
      div_nonneg (by linarith) (by norm_num)
    have hx2 : (s2 - cfg.SOC_min) / 0.05 ≤ 1 := by
      rw [div_le_one (by norm_num : (0:ℝ) < 0.05)]
      linarith
    have hax1 : 0 ≤ Real.pi * ((s1 - cfg.SOC_min) / 0.05) :=
      mul_nonneg Real.pi_pos.le hx1
    have hax2 : Real.pi * ((s2 - cfg.SOC_min) / 0.05) ≤ Real.pi := by
      calc Real.pi * ((s2 - cfg.SOC_min) / 0.05) ≤ Real.pi * 1 :=
            mul_le_mul_of_nonneg_left hx2 Real.pi_pos.le
        _ = Real.pi := mul_one _
    have hax12 : Real.pi * ((s1 - cfg.SOC_min) / 0.05) ≤
        Real.pi * ((s2 - cfg.SOC_min) / 0.05) :=
      mul_le_mul_of_nonneg_left
        ((div_le_div_iff_of_pos_right (by norm_num : (0:ℝ) < 0.05)).mpr (by linarith))
        Real.pi_pos.le
    have hcc := Real.cos_le_cos_of_nonneg_of_le_pi hax1 hax2 hax12
    nlinarith
  · have hsm : Continuous fun soc : ℝ => cfg.P_discharge_max *
        (0.5 * (1 - Real.cos (Real.pi * ((soc - cfg.SOC_min) / 0.05)))) := by
      fun_prop
    exact hsm.continuousOn.congr fun x hx => hform x hx

/-- C6 witness: at the example configuration (SOC_min = 0.15,
P_discharge_max = 125), SOC = 0.10 gives discharge limit 0 and SOC = 0.5
gives the full 125 kW. -/
theorem C6_discharge_limit_curve_witness :
    0 ≤ cfg0.P_discharge_max ∧
    (Calculate_SOC_Power_Limits 0.10 cfg0).2 = 0 ∧
    (Calculate_SOC_Power_Limits 0.5 cfg0).2 = cfg0.P_discharge_max :=
  ⟨by norm_num [cfg0],
    (C6_discharge_limit_curve cfg0 (by norm_num [cfg0])).1 0.10 (by norm_num [cfg0]),
    (C6_discharge_limit_curve cfg0 (by norm_num [cfg0])).2.1 0.5 (by norm_num [cfg0])⟩

/-- One line of the CSV configuration file as seen after the line-level
parsing in `load_configuration_from_csv` (src/unnamed/part_000 lines
49-66): a skipped blank/comment line, a `key,value` pair (the value is the
`atof` result), or a line missing the comma-separated value. -/
inductive CsvLine where
  | blank : CsvLine
  | kv : String → ℝ → CsvLine
  | malformed : CsvLine

/-- Outcome of the CSV loader: the updated configuration, the list of
recognized keys that were assigned, the number of warnings printed, and the
return code. -/
structure CsvLoadResult where
  cfg : SystemConfig_Cfg
  assigned : List String
  warnings : Nat
  ret : Int

/-- The key-dispatch chain of `load_configuration_from_csv`
(src/unnamed/part_000 lines 68-98): a recognized key updates the matching
field of `sys_cfg` (second component true); an unrecognized key leaves the
configuration unchanged (second component false, warning printed). -/
def apply_csv_kv (cfg : SystemConfig_Cfg) (key : String) (value : ℝ) :
    SystemConfig_Cfg × Bool :=
  if key = "V_ref_upper" then ({ cfg with V_ref_upper := value }, true)
  else if key = "V_ref_lower" then ({ cfg with V_ref_lower := value }, true)
  else if key = "Deadband_upper" then ({ cfg with Deadband_upper := value }, true)
  else if key = "Deadband_lower" then ({ cfg with Deadband_lower := value }, true)
  else if key = "V_enter_lower" then ({ cfg with V_enter_lower := value }, true)
  else if key = "Kp_upper" then ({ cfg with Kp_upper := value }, true)
  else if key = "Ki_upper" then ({ cfg with Ki_upper := value }, true)
  else if key = "Kp_lower" then ({ cfg with Kp_lower := value }, true)
  else if key = "Ki_lower" then ({ cfg with Ki_lower := value }, true)
  else if key = "P_step_max" then ({ cfg with P_step_max := value }, true)
  else if key = "P_charge_max" then ({ cfg with P_charge_max := value }, true)
  else if key = "P_discharge_max" then ({ cfg with P_discharge_max := value }, true)
  else if key = "SOC_max" then ({ cfg with SOC_max := value }, true)
  else if key = "SOC_min" then ({ cfg with SOC_min := value }, true)
  else (cfg, false)

/-- The line-processing loop of `load_configuration_from_csv`
(src/unnamed/part_000 lines 49-102), threading the configuration, the
assigned-key list and the warning count through the lines in order. -/
def csv_process (cfg : SystemConfig_Cfg) (assigned : List String)
    (warnings : Nat) : List CsvLine → SystemConfig_Cfg × List String × Nat
  | [] => (cfg, assigned, warnings)
  | CsvLine.blank :: rest => csv_process cfg assigned warnings rest
  | CsvLine.malformed :: rest => csv_process cfg assigned (warnings + 1) rest
  | CsvLine.kv key value :: rest =>
    let r := apply_csv_kv cfg key value
    if r.2 then csv_process r.1 (assigned ++ [key]) warnings rest
    else csv_process cfg assigned (warnings + 1) rest

/-- `load_configuration_from_csv` (src/unnamed/part_000 lines 39-107) on a
file that was opened successfully: it processes every line and then
unconditionally returns 0; no check that any required field was ever
assigned is performed. -/
def load_configuration_from_csv (cfg : SystemConfig_Cfg)
    (lines : List CsvLine) : CsvLoadResult :=
  let r := csv_process cfg [] 0 lines
  { cfg := r.1, assigned := r.2.1, warnings := r.2.2, ret := 0 }

/-- The `voltage_settings` object of the JSON configuration
(voltage_control.cpp lines 361-366). -/
structure JsonVoltageSettings where
  V_ref_upper : ℝ
  V_ref_lower : ℝ
  Deadband_upper : ℝ
  Deadband_lower : ℝ
  V_enter_lower : ℝ

/-- The `pi_controller` object of the JSON configuration
(voltage_control.cpp lines 368-372). -/
structure JsonPiController where
  Kp_upper : ℝ
  Ki_upper : ℝ
  Kp_lower : ℝ
  Ki_lower : ℝ

/-- The `power_limits` object of the JSON configuration
(voltage_control.cpp lines 374-379). -/
structure JsonPowerLimits where
  P_step_max : ℝ
  P_charge_max : ℝ
  P_discharge_max : ℝ
  SOC_max : ℝ
  SOC_min : ℝ

/-- A parsed JSON configuration document: each of the three section
objects is present or absent.  Individual field reads inside a present
section are modelled as total because the C code dereferences
`cJSON_GetObjectItemCaseSensitive(...)` without a null check
(voltage_control.cpp lines 362-379), so a present section with a missing
field has no defined behavior to embed. -/
structure JsonConfigDoc where
  voltage_settings : Option JsonVoltageSettings
  pi_controller : Option JsonPiController
  power_limits : Option JsonPowerLimits

/-- `load_configuration` (voltage_control.cpp lines 308-385) after a
successful parse: if any of the three section objects is missing it
returns -1 leaving the configuration unchanged (lines 355-359); otherwise
it fills every field and returns 0. -/
def load_configuration (cfg : SystemConfig_Cfg) (doc : JsonConfigDoc) :
    SystemConfig_Cfg × Int :=
  match doc.voltage_settings, doc.pi_controller, doc.power_limits with
  | some v, some p, some w =>
    ({ V_ref_upper := v.V_ref_upper, V_ref_lower := v.V_ref_lower,
       Deadband_upper := v.Deadband_upper, Deadband_lower := v.Deadband_lower,
       V_enter_lower := v.V_enter_lower,
       Kp_upper := p.Kp_upper, Ki_upper := p.Ki_upper,
       Kp_lower := p.Kp_lower, Ki_lower := p.Ki_lower,
       P_step_max := w.P_step_max, P_charge_max := w.P_charge_max,
       P_discharge_max := w.P_discharge_max,
       SOC_max := w.SOC_max, SOC_min := w.SOC_min }, 0)
  | _, _, _ => (cfg, -1)

/-- The zero-initialized global `sys_cfg` before any loader runs. -/
def cfg_zero : SystemConfig_Cfg :=
  { V_ref_upper := 0, V_ref_lower := 0,
    Deadband_upper := 0, Deadband_lower := 0, V_enter_lower := 0,
    Kp_upper := 0, Ki_upper := 0, Kp_lower := 0, Ki_lower := 0,
    P_step_max := 0, P_charge_max := 0, P_discharge_max := 0,
    SOC_max := 0, SOC_min := 0 }

/-- C9 counterexample: the CSV loader run on a readable file containing no
key/value lines at all — every one of the 14 required fields missing —
still returns 0 (success), so configuration loading does NOT fail on
missing required fields for the CSV loader. -/
theorem C9_counterexample_csv_missing_fields :
    (load_configuration_from_csv cfg_zero []).ret = 0 ∧
    (load_configuration_from_csv cfg_zero []).assigned = [] := by
  constructor <;> rfl

/-- A key matching none of the 14 recognized configuration keys, used to
exercise the unknown-key warning path of the CSV loader. -/
def unknown_key : String := "not_a_field"

/-- A concrete `voltage_settings` section for exercising the JSON loader's
all-sections-present path. -/
def json_voltage_example : JsonVoltageSettings :=
  { V_ref_upper := 241, V_ref_lower := 198,
    Deadband_upper := 2, Deadband_lower := 2, V_enter_lower := 160 }

/-- A concrete `pi_controller` section for the JSON loader. -/
def json_pi_example : JsonPiController :=
  { Kp_upper := 1, Ki_upper := 1, Kp_lower := 1, Ki_lower := 1 }

/-- A concrete `power_limits` section for the JSON loader. -/
def json_power_example : JsonPowerLimits :=
  { P_step_max := 10, P_charge_max := 125, P_discharge_max := 125,
    SOC_max := 1, SOC_min := 0 }

/-- The warning counter of `csv_process` is a pure accumulator: starting it
at `w` just adds `w` to the count obtained from 0, and changes neither the
resulting configuration nor the assigned-key list. -/
lemma csv_process_add_warnings (cfg : SystemConfig_Cfg) (a : List String)
    (w : Nat) (lines : List CsvLine) :
    csv_process cfg a w lines =
      ((csv_process cfg a 0 lines).1, (csv_process cfg a 0 lines).2.1,
        w + (csv_process cfg a 0 lines).2.2) := by
  induction lines generalizing cfg a w with
  | nil => simp [csv_process]
  | cons l rest ih =>
    cases l with
    | blank =>
      simp only [csv_process]
      exact ih cfg a w
    | malformed =>
      simp only [csv_process]
      rw [ih cfg a (w + 1), ih cfg a (0 + 1)]
      simp [Nat.add_assoc]
    | kv k v =>
      simp only [csv_process]
      by_cases h : (apply_csv_kv cfg k v).2 = true
      · simp only [h, if_true]
        exact ih _ _ w
      · simp only [h, if_false]
        rw [ih cfg a (w + 1), ih cfg a (0 + 1)]
        simp [Nat.add_assoc]

/-- C9 amended: the CSV loader returns success (0) for every readable file
regardless of which required fields are present; prepending an
unrecognized-key line or a malformed line changes neither the resulting
configuration nor the assigned keys and only adds one warning.  The JSON
loader returns an error (-1) exactly when one of its three section objects
is missing, and success (0) exactly when all three are present. -/
theorem C9_amended_loader_failure (cfg : SystemConfig_Cfg)
    (lines : List CsvLine) (doc : JsonConfigDoc) :
    (load_configuration_from_csv cfg lines).ret = 0 ∧
    (∀ (k : String) (v : ℝ) (rest : List CsvLine),
      (apply_csv_kv cfg k v).2 = false →
      (load_configuration_from_csv cfg (CsvLine.kv k v :: rest)).cfg =
        (load_configuration_from_csv cfg rest).cfg ∧
      (load_configuration_from_csv cfg (CsvLine.kv k v :: rest)).assigned =
        (load_configuration_from_csv cfg rest).assigned ∧
      (load_configuration_from_csv cfg (CsvLine.kv k v :: rest)).warnings =
        (load_configuration_from_csv cfg rest).warnings + 1) ∧
    (∀ rest : List CsvLine,
      (load_configuration_from_csv cfg (CsvLine.malformed :: rest)).cfg =
        (load_configuration_from_csv cfg rest).cfg ∧
      (load_configuration_from_csv cfg (CsvLine.malformed :: rest)).assigned =
        (load_configuration_from_csv cfg rest).assigned ∧
      (load_configuration_from_csv cfg (CsvLine.malformed :: rest)).warnings =
        (load_configuration_from_csv cfg rest).warnings + 1) ∧
    ((load_configuration cfg doc).2 = -1 ↔
      (doc.voltage_settings = none ∨ doc.pi_controller = none ∨
        doc.power_limits = none)) ∧
    ((load_configuration cfg doc).2 = 0 ↔
      ¬ (doc.voltage_settings = none ∨ doc.pi_controller = none ∨
        doc.power_limits = none)) := by
  refine ⟨rfl, ?_, ?_, ?_, ?_⟩
  · intro k v rest hk
    have e : csv_process cfg [] 0 (CsvLine.kv k v :: rest) =
        csv_process cfg [] 1 rest := by
      simp [csv_process, hk]
    refine ⟨?_, ?_, ?_⟩ <;>
      simp [load_configuration_from_csv, e, csv_process_add_warnings cfg [] 1 rest]
    omega
  · intro rest
    have e : csv_process cfg [] 0 (CsvLine.malformed :: rest) =
        csv_process cfg [] 1 rest := by
      simp [csv_process]
    refine ⟨?_, ?_, ?_⟩ <;>
      simp [load_configuration_from_csv, e, csv_process_add_warnings cfg [] 1 rest]
    omega
  · obtain ⟨v, p, w⟩ := doc
    cases v <;> cases p <;> cases w <;> simp [load_configuration]
  · obtain ⟨v, p, w⟩ := doc
    cases v <;> cases p <;> cases w <;> simp [load_configuration]

/-- C9 amended witness: a file of one blank and one malformed line loads
with success code 0; a single unrecognized-key line leaves the
configuration and assigned keys those of the empty file and adds one
warning; a JSON document missing all three sections is rejected with -1
while one with all three present loads with 0. -/
theorem C9_amended_loader_failure_witness :
    (load_configuration_from_csv cfg_zero [CsvLine.blank, CsvLine.malformed]).ret = 0 ∧
    ((load_configuration_from_csv cfg_zero [CsvLine.kv unknown_key 7]).cfg =
        (load_configuration_from_csv cfg_zero []).cfg ∧
      (load_configuration_from_csv cfg_zero [CsvLine.kv unknown_key 7]).assigned =
        (load_configuration_from_csv cfg_zero []).assigned ∧
      (load_configuration_from_csv cfg_zero [CsvLine.kv unknown_key 7]).warnings =
        (load_configuration_from_csv cfg_zero []).warnings + 1) ∧
    (load_configuration cfg_zero (JsonConfigDoc.mk none none none)).2 = -1 ∧
    (load_configuration cfg_zero (JsonConfigDoc.mk (some json_voltage_example)
      (some json_pi_example) (some json_power_example))).2 = 0 :=
  ⟨(C9_amended_loader_failure cfg_zero [CsvLine.blank, CsvLine.malformed]
      (JsonConfigDoc.mk none none none)).1,
    (C9_amended_loader_failure cfg_zero [] (JsonConfigDoc.mk none none none)).2.1
      unknown_key 7 [] (by rfl),
    (C9_amended_loader_failure cfg_zero [] (JsonConfigDoc.mk none none none)).2.2.2.1.mpr
      (Or.inl rfl),
    (C9_amended_loader_failure cfg_zero []
      (JsonConfigDoc.mk (some json_voltage_example) (some json_pi_example)
        (some json_power_example))).2.2.2.2.mpr (by simp)⟩
